import Mathlib

/-!
Verification of the lead-generator core (carlcgb/lead-generator).

The Python sources `src/app.py` and `src/streamlit_app.py` contain two
near-identical copies of the pipeline.  Shared pure functions
(`classify_pains`, `is_negative_review`, `calculate_lead_score`,
`generate_lead_hash`) are byte-identical between the two files and are
embedded once.  Where the two files differ (the crawl controller
`scrape_review_pages`), both variants are embedded, prefixed `app_` and
`st_`.

Modelling conventions:
* Python `float` ratings and scores become `ℚ` (every constant and
  comparison in the source is exact in binary floating point, so the
  rational model is faithful).
* Python strings become `String`; string primitives (`s[:n]`,
  `str.lower()`, `s.split(c)`, `sub in s`, `min`) are given explicit
  structural definitions below (`strTake`, `strLower`, `strSplitOn`,
  `strContains`, `pymin`) so that every theorem can be checked by
  kernel evaluation on concrete inputs.
* SQLite tables become lists of rows; a NULLable column becomes an
  `Option` field.
* I/O (HTTP fetches, BeautifulSoup HTML parsing, `datetime.now()`,
  `print`/`st.*` display calls) is modelled by explicit parameters:
  fetch/parse oracles in a `ScrapeEnv`, a `now : String` timestamp
  argument, and display calls are dropped (they do not affect returned
  values).
-/

namespace LeadGen

/-- Python `str.lower()` (ASCII case folding, the only case the sources use). -/
def strLower (s : String) : String := String.mk (s.data.map Char.toLower)

/-- Python `s[:n]` on strings. -/
def strTake (s : String) (n : Nat) : String := String.mk (s.data.take n)

/-- Split a character list at every occurrence of `sep` (single-character
separator, as in Python `s.split(',')` / `s.split('?')`). -/
def splitCharsOn (sep : Char) : List Char → List (List Char)
  | [] => [[]]
  | c :: rest =>
    match splitCharsOn sep rest with
    | [] => [[]]
    | g :: gs => if c = sep then [] :: g :: gs else (c :: g) :: gs

/-- Python `s.split(sep)` for a one-character separator. -/
def strSplitOn (sep : Char) (s : String) : List String :=
  (splitCharsOn sep s.data).map String.mk

/-- Boolean test that `p` is an initial segment of `s` (character lists). -/
def leadsWith : List Char → List Char → Bool
  | [], _ => true
  | _ :: _, [] => false
  | p :: ps, c :: cs => p == c && leadsWith ps cs

/-- Boolean test that `pat` occurs contiguously somewhere in the list. -/
def hasSubList (pat : List Char) : List Char → Bool
  | [] => pat.isEmpty
  | c :: cs => leadsWith pat (c :: cs) || hasSubList pat cs

/-- Python's substring containment `pat in s`. -/
def strContains (s pat : String) : Bool :=
  hasSubList pat.data s.data

/-- `NEGATIVE_KEYWORDS` table from `app.py` lines 297-304 /
`streamlit_app.py`: pain tag → keyword substrings, in insertion order. -/
def NEGATIVE_KEYWORDS : List (String × List String) :=
  [ ("complexity", ["complex", "complicated", "confusing", "hard to use", "difficult"]),
    ("bugs", ["buggy", "crash", "error", "issue", "downtime", "glitch"]),
    ("support", ["support", "service", "helpdesk", "customer service", "response time"]),
    ("integration", ["integration", "integrate", "api", "sync", "doesn\x27t connect"]),
    ("cost", ["expensive", "too costly", "price", "pricing", "overpriced"]),
    ("performance", ["slow", "laggy", "performance", "takes forever"]) ]

/-- `MIN_BAD_RATING = 3.0`. -/
def MIN_BAD_RATING : ℚ := 3

/-- `classify_pains(text)`: a tag is emitted iff one of its keywords occurs
(case-insensitively) in the text; table order is preserved. -/
def classify_pains (text : String) : List String :=
  let text_l := strLower text
  (NEGATIVE_KEYWORDS.filter (fun tk => tk.2.any (fun k => strContains text_l k))).map
    (fun tk => tk.1)

/-- `is_negative_review(text, rating)`. -/
def is_negative_review (text : String) (rating : Option ℚ) : Bool :=
  match rating with
  | some r => decide (r ≤ MIN_BAD_RATING) || !(classify_pains text).isEmpty
  | none => !(classify_pains text).isEmpty

/-- The `LeadReview` dataclass. -/
structure LeadReview where
  company_name : String
  reviewer_name : String
  review_title : String
  review_text : String
  rating : Option ℚ
  pain_tags : String
  source_url : String
  scraped_at : String
  lead_score : ℤ
  status : String
  notes : String
deriving Repr, DecidableEq

/-- Rating component of `calculate_lead_score` (0 when rating is absent).
The score only ever accumulates integer constants, so score arithmetic is
embedded in `ℤ` (the Python float value is exactly this integer). -/
def ratingPoints : Option ℚ → ℤ
  | none => 0
  | some r =>
    if r ≤ 1 then 30
    else if r ≤ 2 then 25
    else if r ≤ 5/2 then 20
    else if r ≤ 3 then 15
    else 5

/-- `pain_count = len(lead.pain_tags.split(',')) if lead.pain_tags else 0`. -/
def pain_count (pain_tags : String) : Nat :=
  if pain_tags = "" then 0 else (strSplitOn ',' pain_tags).length

/-- Pain-count component of `calculate_lead_score`. -/
def painCountPoints (n : Nat) : ℤ :=
  if 3 ≤ n then 40
  else if n = 2 then 30
  else if n = 1 then 20
  else 0

/-- `high_value_pains = ['complexity', 'bugs', 'performance']`. -/
def high_value_pains : List String := ["complexity", "bugs", "performance"]

/-- High-value-tag bonus: +7 for each high-value pain occurring as a
substring of `pain_tags.lower()`. -/
def highValuePoints (pain_tags : String) : ℤ :=
  high_value_pains.foldl
    (fun s p => if strContains (strLower pain_tags) p then s + 7 else s) 0

/-- Review-text-length component of `calculate_lead_score`. -/
def lengthPoints (n : Nat) : ℤ :=
  if 300 < n then 10 else if 150 < n then 5 else 0

/-- Names treated as unknown: `['unknown', 'n/a', '']`. -/
def unknownNames : List String := ["unknown", "n/a", ""]

/-- Actionability bonus for a known company/reviewer name
(`if name and name.lower() not in ['unknown', 'n/a', '']`). -/
def namePoints (s : String) : ℤ :=
  if s != "" && !(unknownNames.contains (strLower s)) then 5 else 0

/-- Python built-in `min` on two numbers (returns the first on ties). -/
def pymin (a b : ℤ) : ℤ := if a ≤ b then a else b

/-- `calculate_lead_score(lead)`: additive components, capped at 100. -/
def calculate_lead_score (lead : LeadReview) : ℤ :=
  pymin (ratingPoints lead.rating
       + painCountPoints (pain_count lead.pain_tags)
       + highValuePoints lead.pain_tags
       + lengthPoints lead.review_text.length
       + namePoints lead.company_name
       + namePoints lead.reviewer_name) 100

/-- `",".join(pains)` used when a parsed card is turned into a record. -/
def joinTags : List String → String
  | [] => ""
  | [t] => t
  | t :: ts => t ++ "," ++ joinTags ts

/-- `generate_lead_hash(lead)`.  The source computes
`hashlib.md5(content.encode()).hexdigest()` of
`f"{reviewer_name}|{company_name}|{review_text[:200]}|{source_url}"`; the
dedup logic depends only on equality of digests, so the digest is
modelled as the content string itself (md5 collisions assumed absent). -/
def generate_lead_hash (lead : LeadReview) : String :=
  lead.reviewer_name ++ "|" ++ lead.company_name ++ "|"
    ++ strTake lead.review_text 200 ++ "|" ++ lead.source_url

/-- One row of the SQLite `leads` table created by `init_db`; a NULLable
column becomes an `Option` field.  (`created_at` is a pure DB-side
timestamp default never read by the code and is omitted.) -/
structure LeadRow where
  id : Nat
  company_name : String
  reviewer_name : String
  review_title : String
  review_text : String
  rating : Option ℚ
  pain_tags : String
  source_url : String
  scraped_at : String
  unique_hash : String
  lead_score : ℤ
  status : String
  notes : Option String
  contacted_at : Option String
  converted_at : Option String
deriving Repr, DecidableEq

/-- The row the `INSERT` in `save_leads_to_db` produces for one lead.
Columns not in the `INSERT` column list (`notes`, `contacted_at`,
`converted_at`) take their NULL defaults; the AUTOINCREMENT `id` is
modelled as the current table size. -/
def insertedRow (nextId : Nat) (lead : LeadReview) : LeadRow :=
  { id := nextId
    company_name := lead.company_name
    reviewer_name := lead.reviewer_name
    review_title := lead.review_title
    review_text := lead.review_text
    rating := lead.rating
    pain_tags := lead.pain_tags
    source_url := lead.source_url
    scraped_at := lead.scraped_at
    unique_hash := generate_lead_hash lead
    lead_score := calculate_lead_score lead
    status := lead.status
    notes := none
    contacted_at := none
    converted_at := none }

/-- The UNIQUE constraint on `unique_hash`: an insert raises
`sqlite3.IntegrityError` exactly when the hash is already present. -/
def hashPresent (rows : List LeadRow) (h : String) : Bool :=
  rows.any (fun r => r.unique_hash == h)

/-- One iteration of the `save_leads_to_db` loop: attempt one insert,
counting a UNIQUE-constraint violation as a duplicate. -/
def save_step (acc : Nat × Nat × List LeadRow) (lead : LeadReview) :
    Nat × Nat × List LeadRow :=
  let (saved, duplicates, tbl) := acc
  if hashPresent tbl (generate_lead_hash lead) then (saved, duplicates + 1, tbl)
  else (saved + 1, duplicates, tbl ++ [insertedRow tbl.length lead])

/-- `save_leads_to_db(leads)` over a table state.  Returns
`(saved_count, duplicate_count, new table)`; a duplicate hash is counted
and skipped, never fatal (`if not leads: return (0, 0)` short-circuits). -/
def save_leads_to_db (leads : List LeadReview) (rows : List LeadRow) :
    Nat × Nat × List LeadRow :=
  if leads.isEmpty then (0, 0, rows)
  else leads.foldl save_step (0, 0, rows)

/-- Python truthiness of the optional `notes` argument (`if notes:`):
false for `None` and for the empty string. -/
def notesTruthy : Option String → Bool
  | none => false
  | some s => s != ""

/-- `update_lead_status(lead_id, status, notes=None)` over a table state;
`now` stands for `datetime.now().strftime("%Y-%m-%d %H:%M")`.  The first
`UPDATE` sets `status` (and `notes` only when truthy); a second `UPDATE`
stamps `contacted_at` when the new status is `'contacted'`, or
`converted_at` when it is `'converted'`. -/
def update_lead_status (now : String) (lead_id : Nat) (status : String)
    (notes : Option String) (rows : List LeadRow) : List LeadRow :=
  let rows1 :=
    if notesTruthy notes then
      rows.map (fun r => if r.id = lead_id then { r with status := status, notes := notes } else r)
    else
      rows.map (fun r => if r.id = lead_id then { r with status := status } else r)
  if status = "contacted" then
    rows1.map (fun r => if r.id = lead_id then { r with contacted_at := some now } else r)
  else if status = "converted" then
    rows1.map (fun r => if r.id = lead_id then { r with converted_at := some now } else r)
  else rows1

/-! ### Site-adaptive parsing

BeautifulSoup HTML parsing is outside the embedding: the selector cascade
of each parser produces a list of review "cards", and the per-card
extraction cascades produce the card's text/rating/name fields.  A
`Card` records those extracted fields; the loop structure around them —
the per-source card cap, the 20-character text threshold, the negativity
gate, truncation and record construction — is embedded from the source. -/

/-- Fields extracted from one review card by a parser's cascades. -/
structure Card where
  text : String
  rating : Option ℚ
  reviewer_name : String
  company : String
  title : String
deriving Repr, DecidableEq

/-- Python `s or t` for strings: `t` when `s` is empty (falsy). -/
def orElseStr (s t : String) : String := if s = "" then t else s

/-- The shared per-card tail of the four site-specific parsers: skip the
card when its text is under 20 characters or the review is not negative;
otherwise emit the candidate with `review_title=title[:100] or text[:50]`,
`review_text=text[:500]`, joined pain tags and computed score. -/
def site_card_to_lead (now source_url : String) (c : Card) : Option LeadReview :=
  if c.text.length < 20 then none
  else if !(is_negative_review c.text c.rating) then none
  else
    let pains := classify_pains c.text
    let lead : LeadReview :=
      { company_name := orElseStr c.company "Unknown"
        reviewer_name := orElseStr c.reviewer_name "Unknown"
        review_title := orElseStr (strTake c.title 100) (strTake c.text 50)
        review_text := strTake c.text 500
        rating := c.rating
        pain_tags := joinTags pains
        source_url := source_url
        scraped_at := now
        lead_score := 0
        status := "new"
        notes := "" }
    some { lead with lead_score := calculate_lead_score lead }

/-- Per-card tail of `parse_reviews_generic`: same gates, but the title is
`title[:100]` with no text-prefix fallback. -/
def generic_card_to_lead (now source_url : String) (c : Card) : Option LeadReview :=
  if c.text.length < 20 then none
  else if !(is_negative_review c.text c.rating) then none
  else
    let pains := classify_pains c.text
    let lead : LeadReview :=
      { company_name := orElseStr c.company "Unknown"
        reviewer_name := orElseStr c.reviewer_name "Unknown"
        review_title := strTake c.title 100
        review_text := strTake c.text 500
        rating := c.rating
        pain_tags := joinTags pains
        source_url := source_url
        scraped_at := now
        lead_score := 0
        status := "new"
        notes := "" }
    some { lead with lead_score := calculate_lead_score lead }

/-- `parse_getapp_reviews`: `for card in cards[:200]`. -/
def parse_getapp_reviews (now source_url : String) (cards : List Card) : List LeadReview :=
  (cards.take 200).filterMap (site_card_to_lead now source_url)

/-- `parse_g2_reviews`: `for card in cards[:200]`. -/
def parse_g2_reviews (now source_url : String) (cards : List Card) : List LeadReview :=
  (cards.take 200).filterMap (site_card_to_lead now source_url)

/-- `parse_trustradius_reviews`: `for card in cards[:200]`. -/
def parse_trustradius_reviews (now source_url : String) (cards : List Card) : List LeadReview :=
  (cards.take 200).filterMap (site_card_to_lead now source_url)

/-- `parse_softwareadvice_reviews`: `for card in cards[:200]`. -/
def parse_softwareadvice_reviews (now source_url : String) (cards : List Card) : List LeadReview :=
  (cards.take 200).filterMap (site_card_to_lead now source_url)

/-- `parse_reviews_generic` (generic branch, `app.py` line 1095 /
`streamlit_app.py` line 1083): `for card in cards` — NO 200-card cap. -/
def parse_reviews_generic (now source_url : String) (cards : List Card) : List LeadReview :=
  cards.filterMap (generic_card_to_lead now source_url)

/-! ### Crawl controller (`scrape_review_pages`)

`app.py` and `streamlit_app.py` differ here: only the Streamlit variant
checks the Capterra denylist before fetching.  Both variants are
embedded.  `fetch_html` and the parse step are oracles in a `ScrapeEnv`:
an `Except.error` outcome stands for the Python exception the call
raises, and every oracle consultation is logged in the `fetched` trace
(one entry per `fetch_html` call, i.e. per attempted request). -/

/-- The Python exception classes distinguished by the handlers. -/
inductive PyExc where
  | valueError (msg : String)
  | requestException (msg : String)
  | runtimeError (msg : String)
  | otherExc (msg : String)
deriving Repr, DecidableEq

/-- `str(e)` of a modelled exception. -/
def PyExc.msg : PyExc → String
  | .valueError m => m
  | .requestException m => m
  | .runtimeError m => m
  | .otherExc m => m

/-- Oracles for the controller's collaborators. -/
structure ScrapeEnv where
  fetch_html : String → Except PyExc String
  parse_reviews : String → String → List LeadReview
  playwright_available : Bool

/-- Accumulated outcome of the inner page loop of one URL. -/
structure UrlOutcome where
  leads : List LeadReview
  errors : List String
  fetched : List String
  raised : Option PyExc
deriving Repr, DecidableEq

/-- Result of a `scrape_review_pages` call: leads, per-URL error strings,
and the trace of attempted page fetches. -/
structure ScrapeResult where
  leads : List LeadReview
  errors : List String
  fetched : List String
deriving Repr, DecidableEq

/-- `url.split('?')[0]`. -/
def base_url (url : String) : String := (strSplitOn '?' url).headD ""

/-- The hosts given extra `?page=N` pages.  (`app.py` tests the three
hosts in an `if`/`elif` chain, `streamlit_app.py` as one disjunction;
both append the same pages, embedded once.) -/
def paginationHost (url : String) : Bool :=
  strContains url "g2.com" || strContains url "trustradius.com" || strContains url "getapp.com"

/-- The `pages_to_scrape` list for one URL: the URL itself, plus
`base_url?page=2 .. base_url?page=max_pages` for pagination hosts. -/
def pages_to_scrape (url : String) (max_pages : Nat) : List String :=
  url :: (if paginationHost url then
    (List.range' 2 (max_pages - 1)).map (fun p => base_url url ++ "?page=" ++ toString p)
  else [])

/-- Streamlit denylist test: `'capterra.com' in url or 'capterra.ca' in url`. -/
def isCapterraUrl (url : String) : Bool :=
  strContains url "capterra.com" || strContains url "capterra.ca"

/-- The error entry the Streamlit controller records for a denylisted URL. -/
def st_capterra_reject_msg (url : String) : String :=
  url ++ ": ❌ Capterra explicitly forbids automated scraping. Please use other review sites (G2, GetApp, TrustRadius, SoftwareAdvice)."

/-- Inner page loop of the Streamlit `scrape_review_pages`: fetch and
parse each page; a page yielding zero leads stops pagination unless it is
the first page; a Capterra `ValueError` is recorded and stops the URL;
any other exception breaks pagination silently on a non-first page and
re-raises on the first. -/
def st_fetch_pages (env : ScrapeEnv) (url : String) : List String → UrlOutcome
  | [] => ⟨[], [], [], none⟩
  | p :: rest =>
    match env.fetch_html p with
    | Except.error (PyExc.valueError m) =>
      if strContains (strLower m) "capterra" then ⟨[], [url ++ ": " ++ m], [p], none⟩
      else ⟨[], [], [p], some (PyExc.valueError m)⟩
    | Except.error e =>
      if p == url then ⟨[], [], [p], some e⟩ else ⟨[], [], [p], none⟩
    | Except.ok html =>
      let leads := env.parse_reviews html p
      if leads.isEmpty && p != url then ⟨leads, [], [p], none⟩
      else
        let r := st_fetch_pages env url rest
        ⟨leads ++ r.leads, r.errors, p :: r.fetched, r.raised⟩

/-- `url.split('/')[2] if '/' in url else url` (out-of-range indexing,
impossible for well-formed URLs, yields `""`). -/
def site_name_of (url : String) : String :=
  if strContains url "/" then (strSplitOn '/' url).getD 2 "" else url

/-- The error entry the outer handlers of the Streamlit controller append
for an exception that escaped the page loop of `url`. -/
def st_error_entry (url : String) : PyExc → String
  | PyExc.valueError m => url ++ ": " ++ m
  | PyExc.requestException m =>
    if strContains m "403" || strContains m "Forbidden" then
      if strContains m "Playwright not available" then
        url ++ ": Blocked (403) - Site requires JavaScript rendering. Try a different site or install Playwright (optional)."
      else
        url ++ ": Blocked (403 Forbidden) - " ++ site_name_of url ++ " is blocking automated access.\n💡 **Tip:** This site may require JavaScript rendering or may block scrapers.\n   Try: (1) Different review sites that allow scraping, (2) Manual checking via \x27Website Checker\x27 tab, or (3) Install Playwright for JavaScript rendering (optional)"
    else url ++ ": " ++ m
  | PyExc.runtimeError m => url ++ ": " ++ m
  | PyExc.otherExc m => url ++ ": " ++ m

/-- One URL of the Streamlit `scrape_review_pages`: the Capterra denylist
check short-circuits before any page is built or fetched. -/
def st_scrape_url (env : ScrapeEnv) (max_pages : Nat) (url : String) : ScrapeResult :=
  if isCapterraUrl url then ⟨[], [st_capterra_reject_msg url], []⟩
  else
    let r := st_fetch_pages env url (pages_to_scrape url max_pages)
    match r.raised with
    | none => ⟨r.leads, r.errors, r.fetched⟩
    | some e => ⟨r.leads, r.errors ++ [st_error_entry url e], r.fetched⟩

/-- The Streamlit `scrape_review_pages(urls, max_pages=3)` over all URLs. -/
def st_scrape_review_pages (env : ScrapeEnv) (urls : List String) (max_pages : Nat) : ScrapeResult :=
  match urls with
  | [] => ⟨[], [], []⟩
  | u :: rest =>
    let r1 := st_scrape_url env max_pages u
    let r2 := st_scrape_review_pages env rest max_pages
    ⟨r1.leads ++ r2.leads, r1.errors ++ r2.errors, r1.fetched ++ r2.fetched⟩

/-- Inner page loop of the Flask `scrape_review_pages` (`app.py`): same
pagination-stop rule, but no Capterra `ValueError` branch — any
exception breaks silently on a non-first page and re-raises on the
first. -/
def app_fetch_pages (env : ScrapeEnv) (url : String) : List String → UrlOutcome
  | [] => ⟨[], [], [], none⟩
  | p :: rest =>
    match env.fetch_html p with
    | Except.error e =>
      if p == url then ⟨[], [], [p], some e⟩ else ⟨[], [], [p], none⟩
    | Except.ok html =>
      let leads := env.parse_reviews html p
      if leads.isEmpty && p != url then ⟨leads, [], [p], none⟩
      else
        let r := app_fetch_pages env url rest
        ⟨leads ++ r.leads, r.errors, p :: r.fetched, r.raised⟩

/-- The error entry the outer handlers of the Flask controller append. -/
def app_error_entry (playwright_available : Bool) (url : String) : PyExc → String
  | PyExc.requestException m =>
    if strContains m "403" || strContains m "Forbidden" then
      if playwright_available then
        url ++ ": Still blocked after trying Playwright. The site may have advanced bot protection."
      else
        url ++ " is blocking automated requests (403 Forbidden). Install Playwright: pip install playwright && playwright install chromium"
    else url ++ ": " ++ m
  | e => url ++ ": " ++ e.msg

/-- One URL of the Flask `scrape_review_pages`: NO denylist check — every
URL goes straight to the page loop. -/
def app_scrape_url (env : ScrapeEnv) (max_pages : Nat) (url : String) : ScrapeResult :=
  let r := app_fetch_pages env url (pages_to_scrape url max_pages)
  match r.raised with
  | none => ⟨r.leads, r.errors, r.fetched⟩
  | some e => ⟨r.leads, r.errors ++ [app_error_entry env.playwright_available url e], r.fetched⟩

/-- The Flask `scrape_review_pages(urls, max_pages=3)` over all URLs. -/
def app_scrape_review_pages (env : ScrapeEnv) (urls : List String) (max_pages : Nat) : ScrapeResult :=
  match urls with
  | [] => ⟨[], [], []⟩
  | u :: rest =>
    let r1 := app_scrape_url env max_pages u
    let r2 := app_scrape_review_pages env rest max_pages
    ⟨r1.leads ++ r2.leads, r1.errors ++ r2.errors, r1.fetched ++ r2.fetched⟩


/-- The six pain-tag names, in keyword-table order. -/
def allTags : List String := NEGATIVE_KEYWORDS.map (fun tk => tk.1)

/-- The pagination page URL `base_url?page=N`. -/
def page_url (url : String) (n : Nat) : String :=
  base_url url ++ "?page=" ++ toString n

/-! ### Concrete instances used by witnesses and counterexamples -/

/-- A record achieving every score bonus: 30+40+21+10+5+5 = 111. -/
def maxBonusLead : LeadReview :=
  ⟨"Acme Corp", "Jane Doe", "Too complex", String.mk (List.replicate 301 'a'),
    some 1, "complexity,bugs,performance", "https://example.com/reviews",
    "2024-01-01 00:00", 0, "new", ""⟩

/-- The review text of the spec's end-to-end scenario (claim C4). -/
def c4_review_text : String :=
  "Support response time was terrible and the UI is too complex to learn"

/-- The record of the spec's end-to-end scenario (claim C4). -/
def c4_lead : LeadReview :=
  ⟨"Unknown", "Unknown", "", c4_review_text, some 2,
    joinTags (classify_pains c4_review_text), "https://example.com/reviews",
    "2024-01-01 00:00", 0, "new", ""⟩

/-- Claim C5 counterexample, record A: two pain tags, both high-value. -/
def c5_leadA : LeadReview :=
  ⟨"Unknown", "Unknown", "", "complex buggy word", none,
    joinTags (classify_pains "complex buggy word"),
    "https://example.com/reviews", "2024-01-01 00:00", 0, "new", ""⟩

/-- Claim C5 counterexample, record B: three pain tags, none high-value;
same rating, text length, company and reviewer as record A. -/
def c5_leadB : LeadReview :=
  ⟨"Unknown", "Unknown", "", "support price apis", none,
    joinTags (classify_pains "support price apis"),
    "https://example.com/reviews", "2024-01-01 00:00", 0, "new", ""⟩

/-- Batch element for the claim C2 witness. -/
def c2_lead1 : LeadReview :=
  ⟨"Acme", "Ann", "t1", "the tool is far too expensive for what it does",
    some 2, "cost", "https://example.com/reviews", "2024-01-01 00:00", 0, "new", ""⟩

/-- Second batch element for the claim C2 witness (distinct hash). -/
def c2_lead2 : LeadReview :=
  ⟨"Globex", "Bob", "t2", "constant crashes and errors make it unusable",
    some 1, "bugs", "https://example.com/reviews", "2024-01-01 00:00", 0, "new", ""⟩

/-- A stored row used by the claim C9/C10 witnesses. -/
def c10_row : LeadRow :=
  ⟨1, "Acme", "Ann", "t1", "body", some 2, "cost", "https://example.com/reviews",
    "2024-01-01 00:00", "h1", 40, "new", some "call back Monday", none, none⟩

/-- A card whose extracted text passes every gate (claim C8). -/
def c8_card : Card :=
  ⟨"this product is buggy and crashes constantly", none, "", "", ""⟩

/-- Fetch/parse oracles for the claim C6 witness: every fetch succeeds
(returning the page URL as its html), and only the first page parses to a
non-empty candidate list. -/
def c6_url : String := "https://www.g2.com/products/acme/reviews"

/-- A candidate record returned for the first page in the C6 witness. -/
def c6_lead : LeadReview :=
  ⟨"Unknown", "Unknown", "t", "this app is buggy and slow all the time",
    none, "bugs,performance", c6_url, "2024-01-01 00:00", 0, "new", ""⟩

/-- The claim C6 witness environment. -/
def c6_env : ScrapeEnv :=
  ⟨fun p => Except.ok p,
   fun _ src => if src == c6_url then [c6_lead] else [],
   true⟩

/-- The claim C7 environment: every fetch succeeds, parsing yields nothing. -/
def c7_env : ScrapeEnv :=
  ⟨fun p => Except.ok ("<html>" ++ p), fun _ _ => [], false⟩

/-- A denylisted URL (claim C7). -/
def c7_url : String := "https://www.capterra.com/p/leadgen"

/-- A non-denylisted URL accompanying the C7 witness. -/
def c7_other_url : String := "https://www.g2.com/products/x/reviews"

/-! ### Supporting lemmas -/

lemma ratingPoints_nonneg (r : Option ℚ) : 0 ≤ ratingPoints r := by
  cases r with
  | none => simp [ratingPoints]
  | some x => simp only [ratingPoints]; split_ifs <;> norm_num

lemma painCountPoints_nonneg (n : Nat) : 0 ≤ painCountPoints n := by
  unfold painCountPoints; split_ifs <;> norm_num

lemma highValuePoints_nonneg (s : String) : 0 ≤ highValuePoints s := by
  unfold highValuePoints high_value_pains
  simp only [List.foldl]
  split_ifs <;> norm_num

lemma lengthPoints_nonneg (n : Nat) : 0 ≤ lengthPoints n := by
  unfold lengthPoints; split_ifs <;> norm_num

lemma namePoints_nonneg (s : String) : 0 ≤ namePoints s := by
  unfold namePoints; split_ifs <;> norm_num


lemma hashPresent_append (rows₁ rows₂ : List LeadRow) (h : String) :
    hashPresent (rows₁ ++ rows₂) h = (hashPresent rows₁ h || hashPresent rows₂ h) := by
  simp [hashPresent]

lemma insertedRow_unique_hash (n : Nat) (lead : LeadReview) :
    (insertedRow n lead).unique_hash = generate_lead_hash lead := rfl

lemma hashPresent_true_iff (tbl : List LeadRow) (h : String) :
    hashPresent tbl h = true ↔ h ∈ tbl.map (fun r => r.unique_hash) := by
  simp [hashPresent, List.any_eq_true, List.mem_map]

lemma save_foldl_fresh (leads : List LeadReview) :
    ∀ (saved dups : Nat) (tbl : List LeadRow),
      (leads.map generate_lead_hash).Nodup →
      (∀ l ∈ leads, hashPresent tbl (generate_lead_hash l) = false) →
      ∃ newRows : List LeadRow,
        leads.foldl save_step (saved, dups, tbl) = (saved + leads.length, dups, tbl ++ newRows) ∧
        newRows.map (fun r => r.unique_hash) = leads.map generate_lead_hash := by
  induction leads with
  | nil => intro saved dups tbl _ _; exact ⟨[], by simp, by simp⟩
  | cons l ls ih =>
    intro saved dups tbl hnodup hfresh
    have hl : hashPresent tbl (generate_lead_hash l) = false := hfresh l (by simp)
    rw [List.map_cons, List.nodup_cons] at hnodup
    have htail : ∀ l' ∈ ls,
        hashPresent (tbl ++ [insertedRow tbl.length l]) (generate_lead_hash l') = false := by
      intro l' hl'
      rw [hashPresent_append]
      have h1 : hashPresent tbl (generate_lead_hash l') = false := hfresh l' (by simp [hl'])
      have h2 : generate_lead_hash l ≠ generate_lead_hash l' := by
        intro he
        exact hnodup.1 (he ▸ List.mem_map_of_mem generate_lead_hash hl')
      have hbeq : ((insertedRow tbl.length l).unique_hash == generate_lead_hash l') = false :=
        beq_eq_false_iff_ne.mpr (by rw [insertedRow_unique_hash]; exact h2)
      have h3 : hashPresent [insertedRow tbl.length l] (generate_lead_hash l') = false := by
        show List.any [insertedRow tbl.length l]
          (fun r => r.unique_hash == generate_lead_hash l') = false
        rw [List.any_cons, List.any_nil, hbeq]
        rfl
      rw [h1, h3]
      rfl
    obtain ⟨nr, heq, hmap⟩ :=
      ih (saved + 1) dups (tbl ++ [insertedRow tbl.length l]) hnodup.2 htail
    refine ⟨insertedRow tbl.length l :: nr, ?_, ?_⟩
    · rw [List.foldl_cons]
      have hstep : save_step (saved, dups, tbl) l =
          (saved + 1, dups, tbl ++ [insertedRow tbl.length l]) := by
        simp [save_step, hl]
      rw [hstep, heq]
      simp only [List.append_assoc, List.singleton_append, List.length_cons]
      have harith : saved + 1 + ls.length = saved + (ls.length + 1) := by omega
      rw [harith]
    · simp [insertedRow, hmap]

lemma save_foldl_dup (leads : List LeadReview) :
    ∀ (saved dups : Nat) (tbl : List LeadRow),
      (∀ l ∈ leads, hashPresent tbl (generate_lead_hash l) = true) →
      leads.foldl save_step (saved, dups, tbl) = (saved, dups + leads.length, tbl) := by
  induction leads with
  | nil => intro saved dups tbl _; simp
  | cons l ls ih =>
    intro saved dups tbl hall
    rw [List.foldl_cons]
    have hstep : save_step (saved, dups, tbl) l = (saved, dups + 1, tbl) := by
      simp [save_step, hall l (by simp)]
    rw [hstep, ih saved (dups + 1) tbl (fun l' h' => hall l' (by simp [h']))]
    simp only [List.length_cons]
    have harith : dups + 1 + ls.length = dups + (ls.length + 1) := by omega
    rw [harith]


lemma update_lead_status_eq_map (now : String) (lead_id : Nat) (status : String)
    (notes : Option String) (rows : List LeadRow) :
    update_lead_status now lead_id status notes rows =
      rows.map (fun r =>
        if r.id = lead_id then
          { r with
            status := status
            notes := if notesTruthy notes then notes else r.notes
            contacted_at := if status = "contacted" then some now else r.contacted_at
            converted_at := if status = "converted" then some now else r.converted_at }
        else r) := by
  unfold update_lead_status
  by_cases hn : notesTruthy notes = true <;>
  by_cases hc : status = "contacted" <;>
  by_cases hv : status = "converted" <;>
  first
  | exact absurd (hc.symm.trans hv) (by decide)
  | (simp only [hn, hc, hv, if_true, Bool.false_eq_true, if_false, eq_self_iff_true,
      String.reduceEq, List.map_map]
     try apply List.map_congr_left
     try (intro r _
          by_cases hr : r.id = lead_id <;>
            simp [Function.comp, hr, hn, hc, hv]))

lemma tag_eval : ∀ ts ∈ allTags.sublists,
    pain_count (joinTags ts) = ts.length ∧
    highValuePoints (joinTags ts) =
      7 * (high_value_pains.countP (fun p => ts.contains p) : ℤ) := by decide

lemma painCountPoints_mono {n m : Nat} (h : n ≤ m) :
    painCountPoints n ≤ painCountPoints m := by
  unfold painCountPoints
  split_ifs <;> omega

lemma hv_count_mono {ts1 ts2 : List String} (hsub : ts1 ⊆ ts2) :
    high_value_pains.countP (fun p => ts1.contains p) ≤
      high_value_pains.countP (fun p => ts2.contains p) := by
  apply List.countP_mono_left
  intro p _ hp
  have hmem : p ∈ ts1 := by simpa using hp
  simpa using hsub hmem


lemma filterMap_replicate_of_some {α β : Type} (f : α → Option β) (a : α) (b : β)
    (h : f a = some b) (n : Nat) :
    List.filterMap f (List.replicate n a) = List.replicate n b := by
  induction n with
  | zero => simp
  | succ k ih => simp [List.replicate_succ, h, ih]

/-! ### Claim theorems -/

/-- **C1 counterexample.**  The claim asserts
`is_negative_review("no issues at all", None)` is `false`; it is in fact
`true`: the bugs keyword `"issue"` occurs as a substring of `"issues"`,
so `classify_pains` returns `["bugs"]`. -/
theorem c1_counterexample :
    is_negative_review "no issues at all" none = true ∧
    classify_pains "no issues at all" = ["bugs"] := by decide

/-- **C1 (amended).**  For every text `t` and optional rating `r`,
`is_negative_review(t, r)` is true iff (`r` is present and `r ≤ 3.0`) or
`classify_pains(t)` is non-empty; in particular
`is_negative_review(t, 2.0)` is true for every `t`, and
`is_negative_review("no issues at all", None)` is `true` (not `false`),
because the bugs keyword `"issue"` matches `"issues"`. -/
theorem c1_is_negative_review_iff :
    (∀ (t : String) (r : Option ℚ),
      is_negative_review t r = true ↔
        ((∃ x, r = some x ∧ x ≤ MIN_BAD_RATING) ∨ classify_pains t ≠ [])) ∧
    (∀ t : String, is_negative_review t (some 2) = true) ∧
    is_negative_review "no issues at all" none = true := by
  refine ⟨?_, ?_, by decide⟩
  · intro t r
    cases r with
    | none => simp [is_negative_review, List.isEmpty_iff]
    | some x => simp [is_negative_review, List.isEmpty_iff]
  · intro t
    have h : ((2 : ℚ) ≤ MIN_BAD_RATING) := by norm_num [MIN_BAD_RATING]
    simp [is_negative_review, h]

set_option maxRecDepth 8000 in
/-- **C3.**  `calculate_lead_score` always lies in `[0, 100]`: every
component is non-negative and the sum is capped by `min(·, 100)`; a
record collecting every bonus has component sum
`30+40+21+10+5+5 = 111`, which clamps to `100`. -/
theorem c3_score_in_range :
    (∀ lead : LeadReview, 0 ≤ calculate_lead_score lead ∧ calculate_lead_score lead ≤ 100) ∧
    (ratingPoints maxBonusLead.rating
      + painCountPoints (pain_count maxBonusLead.pain_tags)
      + highValuePoints maxBonusLead.pain_tags
      + lengthPoints maxBonusLead.review_text.length
      + namePoints maxBonusLead.company_name
      + namePoints maxBonusLead.reviewer_name = 111) ∧
    calculate_lead_score maxBonusLead = 100 := by
  refine ⟨?_, by decide, by decide⟩
  intro lead
  unfold calculate_lead_score pymin
  have h1 := ratingPoints_nonneg lead.rating
  have h2 := painCountPoints_nonneg (pain_count lead.pain_tags)
  have h3 := highValuePoints_nonneg lead.pain_tags
  have h4 := lengthPoints_nonneg lead.review_text.length
  have h5 := namePoints_nonneg lead.company_name
  have h6 := namePoints_nonneg lead.reviewer_name
  split_ifs with h <;> constructor <;> omega

/-- **C4.**  On the spec's end-to-end text, `classify_pains` returns
exactly `["complexity", "support"]` (keyword-table order), and the record
with this text, rating 2.0, both names `"Unknown"` and these tags scores
exactly `25 + 30 + 7 + 0 + 0 + 0 = 62`. -/
theorem c4_end_to_end :
    classify_pains c4_review_text = ["complexity", "support"] ∧
    c4_lead.pain_tags = "complexity,support" ∧
    calculate_lead_score c4_lead = 62 := by decide

/-- **C2.**  Saving a batch of records whose identity hashes are pairwise
distinct and absent from the store inserts them all
(`saved_count = batch size`); saving the same batch again saves nothing,
counts every record as a duplicate, and leaves the stored rows
unchanged. -/
theorem c2_dedup_round_trip (leads : List LeadReview) (rows : List LeadRow)
    (hnodup : (leads.map generate_lead_hash).Nodup)
    (hfresh : ∀ l ∈ leads, hashPresent rows (generate_lead_hash l) = false) :
    (save_leads_to_db leads rows).1 = leads.length ∧
    (save_leads_to_db leads (save_leads_to_db leads rows).2.2).1 = 0 ∧
    (save_leads_to_db leads (save_leads_to_db leads rows).2.2).2.1 = leads.length ∧
    (save_leads_to_db leads (save_leads_to_db leads rows).2.2).2.2 =
      (save_leads_to_db leads rows).2.2 := by
  obtain ⟨nr, heq, hmap⟩ := save_foldl_fresh leads 0 0 rows hnodup hfresh
  cases leads with
  | nil => simp [save_leads_to_db]
  | cons l ls =>
    have hne : (l :: ls).isEmpty = false := rfl
    have hall : ∀ l' ∈ l :: ls,
        hashPresent (rows ++ nr) (generate_lead_hash l') = true := by
      intro l' hl'
      rw [hashPresent_true_iff, List.map_append, hmap]
      exact List.mem_append_right _ (List.mem_map_of_mem generate_lead_hash hl')
    unfold save_leads_to_db
    rw [hne]
    simp only [Bool.false_eq_true, if_false, heq]
    rw [save_foldl_dup (l :: ls) 0 0 (rows ++ nr) hall]
    simp

/-- Witness for C2 at a concrete two-record batch over the empty store. -/
theorem c2_witness :
    (([c2_lead1, c2_lead2].map generate_lead_hash).Nodup ∧
      (∀ l ∈ [c2_lead1, c2_lead2], hashPresent [] (generate_lead_hash l) = false)) ∧
    ((save_leads_to_db [c2_lead1, c2_lead2] []).1 = [c2_lead1, c2_lead2].length ∧
     (save_leads_to_db [c2_lead1, c2_lead2] (save_leads_to_db [c2_lead1, c2_lead2] []).2.2).1 = 0 ∧
     (save_leads_to_db [c2_lead1, c2_lead2] (save_leads_to_db [c2_lead1, c2_lead2] []).2.2).2.1 =
       [c2_lead1, c2_lead2].length ∧
     (save_leads_to_db [c2_lead1, c2_lead2] (save_leads_to_db [c2_lead1, c2_lead2] []).2.2).2.2 =
       (save_leads_to_db [c2_lead1, c2_lead2] []).2.2) :=
  ⟨⟨by decide, by decide⟩,
   c2_dedup_round_trip [c2_lead1, c2_lead2] [] (by decide) (by decide)⟩

/-- **C9.**  `update_lead_status` is exactly a per-row update of the rows
matching the id: it sets `status` to the new value, writes
`contacted_at := now` exactly when the new status is `"contacted"` and
`converted_at := now` exactly when it is `"converted"`, and leaves both
timestamps untouched otherwise — a previously-set timestamp is never
cleared (the fields are only ever written with `some now`). -/
theorem c9_update_status (now : String) (lead_id : Nat) (status : String)
    (notes : Option String) (rows : List LeadRow) :
    update_lead_status now lead_id status notes rows =
      rows.map (fun r =>
        if r.id = lead_id then
          { r with
            status := status
            notes := if notesTruthy notes then notes else r.notes
            contacted_at := if status = "contacted" then some now else r.contacted_at
            converted_at := if status = "converted" then some now else r.converted_at }
        else r) :=
  update_lead_status_eq_map now lead_id status notes rows

/-- **C10.**  When the `notes` argument is absent (`None`, the default) or
the empty string, the first `UPDATE` omits the `notes` column entirely:
the stored notes are unchanged while the status update still happens, so
passing empty notes can never clear previously stored notes. -/
theorem c10_notes_preserved (now : String) (lead_id : Nat) (status : String)
    (notes : Option String) (rows : List LeadRow)
    (h : notes = none ∨ notes = some "") :
    update_lead_status now lead_id status notes rows =
      rows.map (fun r =>
        if r.id = lead_id then
          { r with
            status := status
            contacted_at := if status = "contacted" then some now else r.contacted_at
            converted_at := if status = "converted" then some now else r.converted_at }
        else r) := by
  have hn : notesTruthy notes = false := by rcases h with h | h <;> subst h <;> rfl
  rw [update_lead_status_eq_map]
  apply List.map_congr_left
  intro r _
  by_cases hr : r.id = lead_id <;> simp [hr, hn]

/-- Witness for C10: a "lost" status update with `notes=None` on a row
holding non-empty notes. -/
theorem c10_witness :
    ((none : Option String) = none ∨ (none : Option String) = some "") ∧
    update_lead_status "2024-02-02 09:00" 1 "lost" none [c10_row] =
      [c10_row].map (fun r =>
        if r.id = 1 then
          { r with
            status := "lost"
            contacted_at := if "lost" = "contacted" then some "2024-02-02 09:00" else r.contacted_at
            converted_at := if "lost" = "converted" then some "2024-02-02 09:00" else r.converted_at }
        else r) :=
  ⟨Or.inl rfl,
   c10_notes_preserved "2024-02-02 09:00" 1 "lost" none [c10_row] (Or.inl rfl)⟩

/-- **C5 counterexample.**  Two records agreeing on rating, text length,
company and reviewer: record B has more pain tags (3 vs 2) yet a strictly
lower score, because record A's two tags are both high-value (+7 each)
while record B's three are not (44 vs 40).  Score is NOT monotone in raw
pain-tag count. -/
theorem c5_counterexample :
    pain_count c5_leadA.pain_tags ≤ pain_count c5_leadB.pain_tags ∧
    c5_leadA.rating = c5_leadB.rating ∧
    c5_leadA.review_text.length = c5_leadB.review_text.length ∧
    c5_leadA.company_name = c5_leadB.company_name ∧
    c5_leadA.reviewer_name = c5_leadB.reviewer_name ∧
    calculate_lead_score c5_leadB < calculate_lead_score c5_leadA := by decide

/-- **C5 (amended).**  Score is monotone under pain-tag-set extension:
for any two tag lists drawn from the keyword table, if one is a subset of
the other (adding tags, never exchanging them), the record with the
larger tag set scores at least as much, all other fields fixed. -/
theorem c5_monotone_in_tag_superset (lead : LeadReview) (ts1 ts2 : List String)
    (h1 : ts1 ∈ allTags.sublists) (h2 : ts2 ∈ allTags.sublists) (hsub : ts1 ⊆ ts2) :
    calculate_lead_score { lead with pain_tags := joinTags ts1 } ≤
      calculate_lead_score { lead with pain_tags := joinTags ts2 } := by
  have e1 := tag_eval ts1 h1
  have e2 := tag_eval ts2 h2
  have hnodup1 : ts1.Nodup := (List.mem_sublists.mp h1).nodup (by decide)
  have hlen : ts1.length ≤ ts2.length := (List.subperm_of_subset hnodup1 hsub).length_le
  have hpc := painCountPoints_mono hlen
  have hhv : (high_value_pains.countP (fun p => ts1.contains p) : ℤ) ≤
      (high_value_pains.countP (fun p => ts2.contains p) : ℤ) := by
    exact_mod_cast hv_count_mono hsub
  unfold calculate_lead_score pymin
  dsimp only
  rw [e1.1, e1.2, e2.1, e2.2]
  split_ifs <;> omega

/-- Witness for the amended C5 at `["bugs"] ⊆ ["bugs", "cost"]`. -/
theorem c5_witness :
    (["bugs"] ∈ allTags.sublists ∧ ["bugs", "cost"] ∈ allTags.sublists ∧
      ["bugs"] ⊆ ["bugs", "cost"]) ∧
    calculate_lead_score { c5_leadA with pain_tags := joinTags ["bugs"] } ≤
      calculate_lead_score { c5_leadA with pain_tags := joinTags ["bugs", "cost"] } :=
  ⟨⟨by decide, by decide, by decide⟩,
   c5_monotone_in_tag_superset c5_leadA ["bugs"] ["bugs", "cost"]
     (by decide) (by decide) (by decide)⟩

/-- **C8 counterexample.**  The generic parsing strategy has NO 200-card
cap (`for card in cards`, `app.py` line 1095 / `streamlit_app.py` line
1083): a page whose selector matches 201 viable cards yields 201
candidate records, so "parse returns at most 200 candidate records per
page" fails for the generic strategy. -/
theorem c8_counterexample :
    200 < (parse_reviews_generic "2024-01-01 00:00" "https://example.com/reviews"
      (List.replicate 201 c8_card)).length := by
  have hsome : (generic_card_to_lead "2024-01-01 00:00" "https://example.com/reviews"
      c8_card).isSome = true := by decide
  obtain ⟨b, hb⟩ := Option.isSome_iff_exists.mp hsome
  unfold parse_reviews_generic
  rw [filterMap_replicate_of_some _ _ _ hb, List.length_replicate]
  norm_num

/-- **C8 (amended).**  Each of the four site-specific parsers processes
at most 200 review cards (`for card in cards[:200]`), so each returns at
most 200 candidates per page; only the generic strategy is uncapped. -/
theorem c8_site_parsers_capped (now source_url : String) (cards : List Card) :
    (parse_getapp_reviews now source_url cards).length ≤ 200 ∧
    (parse_g2_reviews now source_url cards).length ≤ 200 ∧
    (parse_trustradius_reviews now source_url cards).length ≤ 200 ∧
    (parse_softwareadvice_reviews now source_url cards).length ≤ 200 := by
  refine ⟨?_, ?_, ?_, ?_⟩ <;>
    exact le_trans (List.length_filterMap_le _ _) (List.length_take_le _ _)

/-- **C6.**  In a 3-page crawl of a pagination-host URL where both the
first and second pages fetch successfully and page 2 parses to an empty
candidate list, pagination stops: exactly pages 1 and 2 are requested,
page 3 is never fetched, and no error is recorded for the empty page.
Holds for both the Streamlit and the Flask controller. -/
theorem c6_pagination_stop (env : ScrapeEnv) (url html1 html2 : String)
    (hpag : paginationHost url = true)
    (hcap : isCapterraUrl url = false)
    (h1 : env.fetch_html url = Except.ok html1)
    (h2 : env.fetch_html (page_url url 2) = Except.ok html2)
    (hp2 : env.parse_reviews html2 (page_url url 2) = [])
    (hne2 : page_url url 2 ≠ url)
    (hne31 : page_url url 3 ≠ url) (hne32 : page_url url 3 ≠ page_url url 2) :
    ((st_scrape_url env 3 url).fetched = [url, page_url url 2] ∧
     (st_scrape_url env 3 url).errors = [] ∧
     page_url url 3 ∉ (st_scrape_url env 3 url).fetched) ∧
    ((app_scrape_url env 3 url).fetched = [url, page_url url 2] ∧
     (app_scrape_url env 3 url).errors = [] ∧
     page_url url 3 ∉ (app_scrape_url env 3 url).fetched) := by
  have hpages : pages_to_scrape url 3 = [url, page_url url 2, page_url url 3] := by
    simp [pages_to_scrape, hpag, page_url, List.range']
  have hb2 : (page_url url 2 != url) = true := bne_iff_ne.mpr hne2
  have hbs : (url != url) = false := bne_self_eq_false url
  have hst : st_fetch_pages env url [url, page_url url 2, page_url url 3] =
      ⟨env.parse_reviews html1 url ++ [], [], url :: [page_url url 2], none⟩ := by
    simp only [st_fetch_pages, h1, h2, hp2, hb2, hbs, Bool.and_false, Bool.false_eq_true,
      if_false, List.isEmpty_nil, Bool.and_true, if_true]
  have happ : app_fetch_pages env url [url, page_url url 2, page_url url 3] =
      ⟨env.parse_reviews html1 url ++ [], [], url :: [page_url url 2], none⟩ := by
    simp only [app_fetch_pages, h1, h2, hp2, hb2, hbs, Bool.and_false, Bool.false_eq_true,
      if_false, List.isEmpty_nil, Bool.and_true, if_true]
  constructor
  · unfold st_scrape_url
    rw [hcap]
    simp only [Bool.false_eq_true, if_false, hpages, hst]
    simp [hne31, hne32]
  · unfold app_scrape_url
    simp only [hpages, happ]
    simp [hne31, hne32]

/-- Witness for C6: a concrete g2.com crawl whose second page parses
empty. -/
theorem c6_witness :
    ((st_scrape_url c6_env 3 c6_url).fetched = [c6_url, page_url c6_url 2] ∧
     (st_scrape_url c6_env 3 c6_url).errors = [] ∧
     page_url c6_url 3 ∉ (st_scrape_url c6_env 3 c6_url).fetched) ∧
    ((app_scrape_url c6_env 3 c6_url).fetched = [c6_url, page_url c6_url 2] ∧
     (app_scrape_url c6_env 3 c6_url).errors = [] ∧
     page_url c6_url 3 ∉ (app_scrape_url c6_env 3 c6_url).fetched) :=
  c6_pagination_stop c6_env c6_url c6_url (page_url c6_url 2)
    (by decide) (by decide) rfl rfl (by decide) (by decide) (by decide) (by decide)

/-- **C7 counterexample.**  The Flask controller (`app.py`
`scrape_review_pages`) has no denylist check: a capterra.com URL is
fetched (one request attempted) and, the fetch succeeding, produces NO
entry in the error list — both halves of the claim fail for `app.py`. -/
theorem c7_counterexample :
    isCapterraUrl c7_url = true ∧
    (app_scrape_review_pages c7_env [c7_url] 3).fetched = [c7_url] ∧
    (app_scrape_review_pages c7_env [c7_url] 3).errors = [] := by decide

/-- **C7 (amended).**  In the Streamlit controller, a denylisted URL
(capterra.com / capterra.ca) anywhere in the crawl list contributes
exactly one error entry and zero fetch attempts, and the rest of the list
is processed as if the URL were not there. -/
theorem c7_denylist_short_circuit (env : ScrapeEnv) (max_pages : Nat)
    (pre post : List String) (url : String) (hcap : isCapterraUrl url = true) :
    st_scrape_review_pages env (pre ++ url :: post) max_pages =
      ⟨(st_scrape_review_pages env pre max_pages).leads
          ++ (st_scrape_review_pages env post max_pages).leads,
        (st_scrape_review_pages env pre max_pages).errors
          ++ st_capterra_reject_msg url :: (st_scrape_review_pages env post max_pages).errors,
        (st_scrape_review_pages env pre max_pages).fetched
          ++ (st_scrape_review_pages env post max_pages).fetched⟩ := by
  induction pre with
  | nil =>
    simp [st_scrape_review_pages, st_scrape_url, hcap]
  | cons u us ih =>
    show st_scrape_review_pages env (u :: (us ++ url :: post)) max_pages = _
    simp only [st_scrape_review_pages, ih, List.append_assoc]

/-- Witness for the amended C7: a capterra URL followed by a g2 URL. -/
theorem c7_witness :
    isCapterraUrl c7_url = true ∧
    st_scrape_review_pages c7_env ([] ++ c7_url :: [c7_other_url]) 3 =
      ⟨(st_scrape_review_pages c7_env [] 3).leads
          ++ (st_scrape_review_pages c7_env [c7_other_url] 3).leads,
        (st_scrape_review_pages c7_env [] 3).errors
          ++ st_capterra_reject_msg c7_url
            :: (st_scrape_review_pages c7_env [c7_other_url] 3).errors,
        (st_scrape_review_pages c7_env [] 3).fetched
          ++ (st_scrape_review_pages c7_env [c7_other_url] 3).fetched⟩ :=
  ⟨by decide,
   c7_denylist_short_circuit c7_env 3 [] [c7_other_url] c7_url (by decide)⟩

end LeadGen
